import Mathlib

/-!
Verification of the weather-forecast reshaping program `kadai6-2.py`.

The program's single function `get_weather_forecast` fetches a JMA forecast
JSON document, builds a temperature dictionary keyed by the temperature
block's timeDefines strings, then iterates the weather block's timeDefines
building one output row per entry.  Exceptions of class RequestException
are converted to the no-result outcome None (transport error); exceptions
of class IndexError or KeyError are converted to None (schema error); any
other exception escapes to the caller.

We embed the function shallowly: the nested JSON document becomes nested
structures with Option fields (a missing dictionary key is none), the body
of the try block becomes a computation in Except PyError, and the whole
function becomes a total map from a fetch result to an Outcome.
-/

set_option autoImplicit false

namespace Kadai

/-- The Python exception classes that can arise in the body of the try
block: KeyError from a hard dictionary access d[k], IndexError from a
sequence access xs[i] out of range, and ValueError-class errors
(dateutil ParserError) from pandas.to_datetime on an unparsable string. -/
inductive PyError where
  | keyError
  | indexError
  | valueError
deriving DecidableEq, Repr

/-- One element of an `areas` list.  The weather block's area carries
`weatherCodes`; the temperature block's area carries `tempsMin` and
`tempsMax`.  A field that the underlying JSON object lacks is `none`. -/
structure Area where
  weatherCodes : Option (List String)
  tempsMin : Option (List String)
  tempsMax : Option (List String)
deriving DecidableEq, Repr

/-- One element of the `timeSeries` list: `timeDefines` plus `areas`. -/
structure TimeSeriesBlock where
  timeDefines : Option (List String)
  areas : Option (List Area)
deriving DecidableEq, Repr

/-- One element of the top-level document list: `publishingOffice` plus
`timeSeries`. -/
structure Elem where
  publishingOffice : Option String
  timeSeries : Option (List TimeSeriesBlock)
deriving DecidableEq, Repr

/-- The parsed top-level JSON document: a list of elements (the source
only uses element 0). -/
def ForecastDocument := List Elem

/-- One value of the temperature dictionary `temp_dict`: the inner
Python dict with keys "min" and "max". -/
structure TempEntry where
  min : String
  max : String
deriving DecidableEq, Repr

/-- One row of the resulting DataFrame: the fields 日付, 天気コード,
最低気温, 最高気温 of the dictionary appended to `forecast_list`. -/
structure ForecastRow where
  date : String
  weatherCode : String
  minTemp : String
  maxTemp : String
deriving DecidableEq, Repr

/-- The result of the fetch step (lines 22-27): either a
RequestException-class failure (network error, or raise_for_status on a
non-success HTTP status), or a successfully parsed document. -/
inductive FetchResult where
  | failure
  | success (data : ForecastDocument)

/-- The externally observable outcome of `get_weather_forecast`:
None returned from the RequestException handler (transport error),
None returned from the (IndexError, KeyError) handler (schema error),
an exception escaping to the caller, or a DataFrame whose rows are the
given list. -/
inductive Outcome where
  | transportError
  | schemaError
  | uncaught (e : PyError)
  | result (rows : List ForecastRow)
deriving DecidableEq, Repr

/-- Python sequence indexing `xs[i]`: IndexError when out of range. -/
def pyIndex {α : Type} (xs : List α) (i : Nat) : Except PyError α :=
  match xs[i]? with
  | some x => .ok x
  | none => .error .indexError

/-- Python hard dictionary access `d[k]` on a field modelled as an
Option: KeyError when the key is missing. -/
def pyKey {α : Type} (o : Option α) : Except PyError α :=
  match o with
  | some x => .ok x
  | none => .error .keyError

/-- The empty dictionary `{}` used as the default first area in
`temp_timeseries.get('areas', [{}])[0]`: all keys missing. -/
def emptyArea : Area :=
  ⟨none, none, none⟩

/-- The first temperature area as the source computes it:
`temp_timeseries.get('areas', [{}])[0]`.  When `areas` is missing the
default `[{}]` supplies the empty dictionary; when `areas` is present
but empty the index access raises IndexError (`none` here). -/
def tempArea0 (t : TimeSeriesBlock) : Option Area :=
  match t.areas with
  | none => some emptyArea
  | some [] => none
  | some (a :: _) => some a

/-- Python dict assignment `d[k] = v`: replaces the value in place when
the key is present, otherwise appends the binding. -/
def tempDictInsert (d : List (String × TempEntry)) (k : String) (v : TempEntry) :
    List (String × TempEntry) :=
  match d with
  | [] => [(k, v)]
  | (k', v') :: rest =>
      if k' = k then (k', v) :: rest else (k', v') :: tempDictInsert rest k v

/-- Python dict lookup `d.get(k)` as an Option. -/
def tempDictGet (d : List (String × TempEntry)) (k : String) : Option TempEntry :=
  match d with
  | [] => none
  | (k', v') :: rest => if k' = k then some v' else tempDictGet rest k

/-- The loop of lines 43-47: for i, date_str in enumerate(temp_time_defines),
set temp_dict[date_str] to the pair of temps_min[i] (or "-" when i is out
of range of temps_min) and temps_max[i] (or "-" likewise). -/
def buildTempDict (mins maxs : List String) :
    List String → Nat → List (String × TempEntry) → List (String × TempEntry)
  | [], _, d => d
  | t :: rest, i, d =>
      buildTempDict mins maxs rest (i + 1)
        (tempDictInsert d t
          ⟨if h : i < mins.length then mins.get ⟨i, h⟩ else "-",
           if h : i < maxs.length then maxs.get ⟨i, h⟩ else "-"⟩)

/-- Model of `pandas.to_datetime(s)` succeeding: `s` begins with a
zero-padded calendar date YYYY-MM-DD with a plausible month and day,
followed by nothing or by a time part introduced by 'T' or a space and
made of digits, colons, signs, dots or 'Z' (the ISO-8601 date-time
strings the upstream API produces).  On any other string to_datetime
raises a ValueError-class ParserError. -/
def isValidIsoDateTime (s : String) : Bool :=
  match s.toList with
  | y1 :: y2 :: y3 :: y4 :: '-' :: m1 :: m2 :: '-' :: d1 :: d2 :: rest =>
      y1.isDigit && y2.isDigit && y3.isDigit && y4.isDigit &&
      m1.isDigit && m2.isDigit && d1.isDigit && d2.isDigit &&
      (let m := (m1.toNat - 48) * 10 + (m2.toNat - 48)
       let d := (d1.toNat - 48) * 10 + (d2.toNat - 48)
       decide (1 ≤ m) && decide (m ≤ 12) && decide (1 ≤ d) && decide (d ≤ 31)) &&
      (match rest with
       | [] => true
       | c :: tcs =>
           (c == 'T' || c == ' ') &&
           tcs.all (fun ch =>
             ch.isDigit || ch == ':' || ch == '+' || ch == '-' || ch == '.' || ch == 'Z'))
  | _ => false

/-- Model of `pd.to_datetime(date_str).strftime('%Y-%m-%d')`: for a
valid ISO date-time string the calendar-date portion is its first ten
characters; otherwise a ValueError-class error is raised. -/
def pdToDatetimeStrftime (s : String) : Except PyError String :=
  if isValidIsoDateTime s then .ok (s.take 10) else .error .valueError

/-- The min or max temperature resolved for a weather date string
(lines 59-60): `temp_dict.get(date_str, {}).get("min", "-")`. -/
def resolvedMin (d : List (String × TempEntry)) (k : String) : String :=
  match tempDictGet d k with
  | some e => e.min
  | none => "-"

/-- Same as `resolvedMin` for the "max" key of the inner dictionary. -/
def resolvedMax (d : List (String × TempEntry)) (k : String) : String :=
  match tempDictGet d k with
  | some e => e.max
  | none => "-"

/-- The loop of lines 57-67: for i, date_str in enumerate(weather_time_defines),
resolve min and max from the temperature dictionary, then build the row
dictionary, whose values are evaluated in order: first
pd.to_datetime(date_str).strftime (which can raise ValueError), then
weather_codes[i] (which can raise IndexError). -/
def buildRows (td : List (String × TempEntry)) (codes : List String) :
    List String → Nat → Except PyError (List ForecastRow)
  | [], _ => .ok []
  | dateStr :: rest, i => do
      let minTemp := resolvedMin td dateStr
      let maxTemp := resolvedMax td dateStr
      let date ← pdToDatetimeStrftime dateStr
      let code ← pyIndex codes i
      let restRows ← buildRows td codes rest (i + 1)
      .ok (⟨date, code, minTemp, maxTemp⟩ :: restRows)

/-- The body of the try block after the fetch (lines 29-74): returns the
publishing office together with the rows of the DataFrame, or the first
Python exception raised. -/
def reshapeBody (data : ForecastDocument) : Except PyError (String × List ForecastRow) := do
  let elem0 ← pyIndex data 0
  let publishingOffice ← pyKey elem0.publishingOffice
  let timeSeries ← pyKey elem0.timeSeries
  let tempTs ← pyIndex timeSeries 1
  let tempAreaData ← pyIndex ((tempTs.areas).getD [emptyArea]) 0
  let tempTimeDefines := (tempTs.timeDefines).getD []
  let tempsMin := (tempAreaData.tempsMin).getD []
  let tempsMax := (tempAreaData.tempsMax).getD []
  let tempDict := buildTempDict tempsMin tempsMax tempTimeDefines 0 []
  let weatherTs ← pyIndex timeSeries 0
  let weatherTimeDefines ← pyKey weatherTs.timeDefines
  let weatherAreas ← pyKey weatherTs.areas
  let weatherArea0 ← pyIndex weatherAreas 0
  let weatherCodes ← pyKey weatherArea0.weatherCodes
  let rows ← buildRows tempDict weatherCodes weatherTimeDefines 0
  .ok (publishingOffice, rows)

/-- The whole function `get_weather_forecast`: a RequestException-class
fetch failure is caught and None returned (transport error); inside the
reshape an IndexError or KeyError is caught and None returned (schema
error); any other exception escapes to the caller; otherwise the
DataFrame built from the rows is returned. -/
def get_weather_forecast : FetchResult → Outcome
  | .failure => .transportError
  | .success data =>
      match reshapeBody data with
      | .ok (_, rows) => .result rows
      | .error .indexError => .schemaError
      | .error .keyError => .schemaError
      | .error e => .uncaught e

/-- The row the loop body of lines 62-67 appends for a weather date
string when nothing raises: calendar-date prefix, the given weather
code, and the resolved min and max temperatures. -/
def mkRow (td : List (String × TempEntry)) (code dateStr : String) : ForecastRow :=
  ⟨dateStr.take 10, code, resolvedMin td dateStr, resolvedMax td dateStr⟩

/-- The list of rows `buildRows` produces on the success path: one row
per weather time-define, in order, pairing entry i with weather code i. -/
def rowsSpec (td : List (String × TempEntry)) (codes : List String) :
    List String → Nat → List ForecastRow
  | [], _ => []
  | d :: rest, i => mkRow td (codes.getD i "") d :: rowsSpec td codes rest (i + 1)

/-- The temperature dictionary the source builds from the temperature
block whose first area (after the `.get` defaults) is `ta`. -/
def tempDictOf (t : TimeSeriesBlock) (ta : Area) : List (String × TempEntry) :=
  buildTempDict ((ta.tempsMin).getD []) ((ta.tempsMax).getD []) ((t.timeDefines).getD []) 0 []

/-- The malformed-document conditions named by the error-handling part
of the specification: a missing `timeSeries`, a `timeSeries` with fewer
than two blocks, a temperature `areas` present but empty, a weather
block missing `timeDefines`, `areas` or `weatherCodes` (or with empty
`areas`), or fewer weather codes than weather time-defines (with the
dates up to the overrun parsable, so that the overrun is reached). -/
def schemaBroken (data : ForecastDocument) : Bool :=
  match data with
  | [] => true
  | e :: _ =>
      match e.timeSeries with
      | none => true
      | some [] => true
      | some [_] => true
      | some (w :: t :: _) =>
          (tempArea0 t).isNone ||
          (match w.timeDefines with
           | none => true
           | some tds =>
               match w.areas with
               | none => true
               | some [] => true
               | some (wa :: _) =>
                   match wa.weatherCodes with
                   | none => true
                   | some codes =>
                       decide (codes.length < tds.length) &&
                       (tds.take (codes.length + 1)).all isValidIsoDateTime)

/-- The weather area of the worked example of the specification. -/
def exWeatherArea : Area :=
  ⟨some ["100", "200"], none, none⟩

/-- The temperature area of the worked example of the specification. -/
def exTempArea : Area :=
  ⟨none, some ["18"], some ["25"]⟩

/-- The weather block of the worked example: two time-defines and two
weather codes. -/
def exWeatherBlock : TimeSeriesBlock :=
  ⟨some ["2024-06-01T00:00:00+09:00", "2024-06-02T00:00:00+09:00"], some [exWeatherArea]⟩

/-- The temperature block of the worked example: only the first date
has temperatures. -/
def exTempBlock : TimeSeriesBlock :=
  ⟨some ["2024-06-01T00:00:00+09:00"], some [exTempArea]⟩

/-- The top element of the worked example document. -/
def exElem : Elem :=
  ⟨some "気象庁", some [exWeatherBlock, exTempBlock]⟩

/-- The worked-example document of section 8 of the specification. -/
def exampleDoc : ForecastDocument :=
  [exElem]

/-- A document whose weather block's first time-define cannot be parsed
as a date-time; every dictionary key of the expected path is present. -/
def badDateDoc : ForecastDocument :=
  [⟨some "気象庁",
    some [⟨some ["garbage"], some [⟨some ["100"], none, none⟩]⟩,
          ⟨some [], some [⟨none, some [], some []⟩]⟩]⟩]

/-- A temperature block whose tempsMin is shorter than its timeDefines
while tempsMax covers every index. -/
def shortMinTempBlock : TimeSeriesBlock :=
  ⟨some ["2024-06-01T00:00:00+09:00", "2024-06-02T00:00:00+09:00"],
   some [⟨none, some ["10"], some ["20", "30"]⟩]⟩

/-- The first area of `shortMinTempBlock`. -/
def shortMinTempArea : Area :=
  ⟨none, some ["10"], some ["20", "30"]⟩

theorem pyIndex_eq_ok {α : Type} (xs : List α) (i : Nat) (h : i < xs.length) :
    pyIndex xs i = .ok (xs.get ⟨i, h⟩) := by
  simp [pyIndex, List.getElem?_eq_getElem h]

@[simp] theorem pyIndex_cons_zero {α : Type} (x : α) (xs : List α) :
    pyIndex (x :: xs) 0 = .ok x := by
  simp [pyIndex]

@[simp] theorem pyIndex_cons_succ {α : Type} (x : α) (xs : List α) (i : Nat) :
    pyIndex (x :: xs) (i + 1) = pyIndex xs i := by
  simp [pyIndex]

@[simp] theorem pyIndex_nil {α : Type} (i : Nat) :
    pyIndex (α := α) [] i = .error .indexError := by
  simp [pyIndex]

theorem pyIndex_eq_error {α : Type} (xs : List α) (i : Nat) (h : xs.length ≤ i) :
    pyIndex xs i = .error .indexError := by
  simp [pyIndex, List.getElem?_eq_none h]

@[simp] theorem pyKey_some {α : Type} (x : α) : pyKey (some x) = .ok x := rfl

@[simp] theorem pyKey_none {α : Type} : pyKey (α := α) none = .error .keyError := rfl

theorem rowsSpec_length (td : List (String × TempEntry)) (codes : List String) :
    ∀ (tds : List String) (i : Nat), (rowsSpec td codes tds i).length = tds.length
  | [], _ => rfl
  | _ :: rest, i => by simp [rowsSpec, rowsSpec_length td codes rest (i + 1)]

theorem rowsSpec_get? (td : List (String × TempEntry)) (codes : List String) :
    ∀ (tds : List String) (i j : Nat),
      (rowsSpec td codes tds i).get? j =
        (tds.get? j).map (fun d => mkRow td (codes.getD (i + j) "") d)
  | [], _, _ => by simp [rowsSpec]
  | d :: rest, i, 0 => by simp [rowsSpec]
  | d :: rest, i, j + 1 => by
      have h2 : i + 1 + j = i + (j + 1) := by omega
      have h := rowsSpec_get? td codes rest (i + 1) j
      rw [h2] at h
      simp only [rowsSpec, List.get?_cons_succ, h]

/-- On a list of parsable dates all of whose positions are within range
of the weather codes, the row loop succeeds and produces `rowsSpec`. -/
theorem buildRows_ok (td : List (String × TempEntry)) (codes : List String) :
    ∀ (tds : List String) (i : Nat),
      (∀ d ∈ tds, isValidIsoDateTime d = true) →
      i + tds.length ≤ codes.length →
      buildRows td codes tds i = .ok (rowsSpec td codes tds i)
  | [], _, _, _ => rfl
  | d :: rest, i, hvalid, hlen => by
      have hd : isValidIsoDateTime d = true := hvalid d (by simp)
      have hi : i < codes.length := by
        simp only [List.length_cons] at hlen
        omega
      have hrec := buildRows_ok td codes rest (i + 1)
        (fun x hx => hvalid x (by simp [hx]))
        (by simp only [List.length_cons] at hlen; omega)
      simp [buildRows, bind, Except.bind, pdToDatetimeStrftime, hd,
            pyIndex_eq_ok codes i hi, hrec,
            rowsSpec, mkRow, List.getD_eq_getElem?_getD, List.getElem?_eq_getElem hi]

/-- When the weather codes run out before the weather time-defines do
and the dates up to that point parse, the row loop raises IndexError. -/
theorem buildRows_indexError (td : List (String × TempEntry)) (codes : List String) :
    ∀ (tds : List String) (i : Nat),
      i ≤ codes.length →
      codes.length < i + tds.length →
      (∀ d ∈ tds.take (codes.length + 1 - i), isValidIsoDateTime d = true) →
      buildRows td codes tds i = .error .indexError
  | [], i, hle, hlt, _ => by simp only [List.length_nil] at hlt; omega
  | d :: rest, i, hle, hlt, hvalid => by
      have hd : isValidIsoDateTime d = true := by
        apply hvalid d
        have h0 : codes.length + 1 - i = (codes.length - i) + 1 := by omega
        rw [h0]
        simp
      by_cases hi : i < codes.length
      · have hrec := buildRows_indexError td codes rest (i + 1)
          (by omega) (by simp only [List.length_cons] at hlt; omega)
          (by
            intro x hx
            apply hvalid x
            have h1 : codes.length + 1 - i = (codes.length + 1 - (i + 1)) + 1 := by omega
            rw [h1]
            simp only [List.take_succ_cons, List.mem_cons]
            exact Or.inr hx)
        simp [buildRows, bind, Except.bind, pdToDatetimeStrftime, hd,
              pyIndex_eq_ok codes i hi, hrec]
      · have hi2 : codes.length ≤ i := by omega
        simp [buildRows, bind, Except.bind, pdToDatetimeStrftime, hd,
              pyIndex_eq_error codes i hi2]

/-- When the first unparsable weather date sits at position j and all
earlier positions are within range of the weather codes, the row loop
raises the ValueError-class parse error. -/
theorem buildRows_valueError (td : List (String × TempEntry)) (codes : List String) :
    ∀ (tds : List String) (i j : Nat),
      tds.get? j = some (tds.getD j "") →
      isValidIsoDateTime (tds.getD j "") = false →
      (∀ k, k < j → isValidIsoDateTime (tds.getD k "x") = true) →
      i + j ≤ codes.length →
      buildRows td codes tds i = .error .valueError
  | [], _, j, hget, _, _, _ => by simp at hget
  | d :: rest, i, 0, hget, hbad, _, _ => by
      simp only [List.getD_cons_zero] at hbad
      simp [buildRows, bind, Except.bind, pdToDatetimeStrftime, hbad]
  | d :: rest, i, j + 1, hget, hbad, hpre, hlen => by
      have hd : isValidIsoDateTime d = true := by
        have h0 := hpre 0 (by omega)
        simpa using h0
      have hi : i < codes.length := by omega
      have hrec := buildRows_valueError td codes rest (i + 1) j
        (by simpa using hget) (by simpa using hbad)
        (fun k hk => by
          have hk1 := hpre (k + 1) (by omega)
          simpa using hk1)
        (by omega)
      simp [buildRows, bind, Except.bind, pdToDatetimeStrftime, hd,
            pyIndex_eq_ok codes i hi, hrec]

theorem tempDictGet_insert (d : List (String × TempEntry)) (k : String) (v : TempEntry)
    (k' : String) :
    tempDictGet (tempDictInsert d k v) k' = if k = k' then some v else tempDictGet d k' := by
  induction d with
  | nil => simp [tempDictInsert, tempDictGet]
  | cons p rest ih =>
      obtain ⟨k0, v0⟩ := p
      by_cases h0 : k0 = k
      · subst h0
        by_cases h1 : k0 = k'
        · subst h1
          simp [tempDictInsert, tempDictGet]
        · simp [tempDictInsert, tempDictGet, h1]
      · by_cases h1 : k0 = k'
        · subst h1
          have h2 : ¬ k = k0 := fun h => h0 h.symm
          simp [tempDictInsert, tempDictGet, h0, h2]
        · simp [tempDictInsert, tempDictGet, h0, h1, ih]

theorem tempDictGet_buildTempDict_not_mem (mins maxs : List String) :
    ∀ (ttds : List String) (i : Nat) (acc : List (String × TempEntry)) (k : String),
      k ∉ ttds →
      tempDictGet (buildTempDict mins maxs ttds i acc) k = tempDictGet acc k
  | [], _, _, _, _ => rfl
  | t :: rest, i, acc, k, hmem => by
      have ht : t ≠ k := fun h => hmem (by simp [h])
      have hrest : k ∉ rest := fun h => hmem (by simp [h])
      rw [buildTempDict, tempDictGet_buildTempDict_not_mem mins maxs rest (i + 1) _ k hrest,
          tempDictGet_insert, if_neg ht]

theorem tempDictGet_buildTempDict_isSome (mins maxs : List String) :
    ∀ (ttds : List String) (i : Nat) (acc : List (String × TempEntry)) (k : String),
      (tempDictGet (buildTempDict mins maxs ttds i acc) k).isSome
        = (decide (k ∈ ttds) || (tempDictGet acc k).isSome)
  | [], _, _, _ => by simp [buildTempDict]
  | t :: rest, i, acc, k => by
      rw [buildTempDict, tempDictGet_buildTempDict_isSome mins maxs rest (i + 1)]
      rw [tempDictGet_insert]
      by_cases h : t = k
      · subst h
        simp
      · have h2 : ¬ k = t := fun hh => h hh.symm
        simp [h, h2]

theorem tempDictGet_buildTempDict_nodup (mins maxs : List String) :
    ∀ (ttds : List String) (i : Nat) (acc : List (String × TempEntry))
      (j : Nat) (h : j < ttds.length), ttds.Nodup →
      tempDictGet (buildTempDict mins maxs ttds i acc) (ttds.get ⟨j, h⟩) =
        some ⟨if h2 : i + j < mins.length then mins.get ⟨i + j, h2⟩ else "-",
              if h2 : i + j < maxs.length then maxs.get ⟨i + j, h2⟩ else "-"⟩
  | t :: rest, i, acc, 0, h, hnodup => by
      have ht : t ∉ rest := (List.nodup_cons.mp hnodup).1
      have hkey : (t :: rest).get ⟨0, h⟩ = t := rfl
      simp only [Nat.add_zero]
      rw [buildTempDict, hkey,
          tempDictGet_buildTempDict_not_mem mins maxs rest (i + 1) _ _ ht,
          tempDictGet_insert, if_pos rfl]
  | t :: rest, i, acc, j + 1, h, hnodup => by
      have hrest : rest.Nodup := (List.nodup_cons.mp hnodup).2
      have hj : j < rest.length := by simpa using h
      have hidx : i + 1 + j = i + (j + 1) := by omega
      have ih := tempDictGet_buildTempDict_nodup mins maxs rest (i + 1)
        (tempDictInsert acc t
          ⟨if h2 : i < mins.length then mins.get ⟨i, h2⟩ else "-",
           if h2 : i < maxs.length then maxs.get ⟨i, h2⟩ else "-"⟩) j hj hrest
      rw [hidx] at ih
      rw [buildTempDict]
      exact ih

theorem buildTempDict_min_dash (maxs : List String) :
    ∀ (ttds : List String) (i : Nat) (acc : List (String × TempEntry)),
      (∀ k v, tempDictGet acc k = some v → v.min = "-") →
      ∀ k v, tempDictGet (buildTempDict [] maxs ttds i acc) k = some v → v.min = "-"
  | [], _, _, hacc => hacc
  | t :: rest, i, acc, hacc => by
      rw [buildTempDict]
      apply buildTempDict_min_dash maxs rest (i + 1)
      intro k v hv
      rw [tempDictGet_insert] at hv
      by_cases h : t = k
      · rw [if_pos h] at hv
        cases hv
        simp
      · rw [if_neg h] at hv
        exact hacc k v hv

theorem buildTempDict_max_dash (mins : List String) :
    ∀ (ttds : List String) (i : Nat) (acc : List (String × TempEntry)),
      (∀ k v, tempDictGet acc k = some v → v.max = "-") →
      ∀ k v, tempDictGet (buildTempDict mins [] ttds i acc) k = some v → v.max = "-"
  | [], _, _, hacc => hacc
  | t :: rest, i, acc, hacc => by
      rw [buildTempDict]
      apply buildTempDict_max_dash mins rest (i + 1)
      intro k v hv
      rw [tempDictGet_insert] at hv
      by_cases h : t = k
      · rw [if_pos h] at hv
        cases hv
        simp
      · rw [if_neg h] at hv
        exact hacc k v hv

theorem resolvedMin_dash (td : List (String × TempEntry))
    (h : ∀ k v, tempDictGet td k = some v → v.min = "-") (k : String) :
    resolvedMin td k = "-" := by
  unfold resolvedMin
  cases hg : tempDictGet td k with
  | none => rfl
  | some e => exact h k e hg

theorem resolvedMax_dash (td : List (String × TempEntry))
    (h : ∀ k v, tempDictGet td k = some v → v.max = "-") (k : String) :
    resolvedMax td k = "-" := by
  unfold resolvedMax
  cases hg : tempDictGet td k with
  | none => rfl
  | some e => exact h k e hg

theorem rowsSpec_mem (td : List (String × TempEntry)) (codes : List String) :
    ∀ (tds : List String) (i : Nat) (r : ForecastRow),
      r ∈ rowsSpec td codes tds i → ∃ d ∈ tds, ∃ c, r = mkRow td c d
  | [], _, _, hr => by simp [rowsSpec] at hr
  | d :: rest, i, r, hr => by
      simp only [rowsSpec, List.mem_cons] at hr
      rcases hr with hr | hr
      · exact ⟨d, by simp, codes.getD i "", hr⟩
      · obtain ⟨d', hd', c, hc⟩ := rowsSpec_mem td codes rest (i + 1) r hr
        exact ⟨d', by simp [hd'], c, hc⟩

theorem tempArea0_eq_ok (t : TimeSeriesBlock) (ta : Area) (h : tempArea0 t = some ta) :
    pyIndex ((t.areas).getD [emptyArea]) 0 = .ok ta := by
  unfold tempArea0 at h
  cases harea : t.areas with
  | none =>
      rw [harea] at h
      cases h
      simp [pyIndex]
  | some l =>
      rw [harea] at h
      cases l with
      | nil => cases h
      | cons a rest =>
          cases h
          simp [pyIndex]

theorem tempArea0_eq_error (t : TimeSeriesBlock) (h : tempArea0 t = none) :
    pyIndex ((t.areas).getD [emptyArea]) 0 = .error .indexError := by
  unfold tempArea0 at h
  cases harea : t.areas with
  | none => rw [harea] at h; cases h
  | some l =>
      rw [harea] at h
      cases l with
      | nil => simp [pyIndex]
      | cons a rest => cases h

/-- The success path of the try-block body: with the publishing office
and all weather-block keys present, a non-raising temperature-area
access, parsable weather dates and enough weather codes, the body
returns the office and exactly the rows of `rowsSpec`. -/
theorem reshapeBody_ok (e : Elem) (rest : List Elem) (off : String)
    (w t : TimeSeriesBlock) (bs : List TimeSeriesBlock) (ta wa : Area) (was : List Area)
    (tds codes : List String)
    (hoff : e.publishingOffice = some off)
    (hts : e.timeSeries = some (w :: t :: bs))
    (hta : tempArea0 t = some ta)
    (htd : w.timeDefines = some tds)
    (hwa : w.areas = some (wa :: was))
    (hcodes : wa.weatherCodes = some codes)
    (hvalid : ∀ d ∈ tds, isValidIsoDateTime d = true)
    (hlen : tds.length ≤ codes.length) :
    reshapeBody (e :: rest) = .ok (off, rowsSpec (tempDictOf t ta) codes tds 0) := by
  have harea := tempArea0_eq_ok t ta hta
  have hrows := buildRows_ok (tempDictOf t ta) codes tds 0 hvalid (by omega)
  unfold tempDictOf at hrows
  simp [reshapeBody, bind, Except.bind, hoff, hts, htd, hwa, hcodes, harea, hrows, tempDictOf]

theorem reshapeBody_nil : reshapeBody ([] : ForecastDocument) = .error .indexError := by
  simp [reshapeBody, bind, Except.bind]

theorem reshapeBody_office_none (e : Elem) (rest : List Elem)
    (h : e.publishingOffice = none) :
    reshapeBody (e :: rest) = .error .keyError := by
  simp [reshapeBody, bind, Except.bind, h]

theorem reshapeBody_ts_none (e : Elem) (rest : List Elem) (off : String)
    (hoff : e.publishingOffice = some off) (h : e.timeSeries = none) :
    reshapeBody (e :: rest) = .error .keyError := by
  simp [reshapeBody, bind, Except.bind, hoff, h]

theorem reshapeBody_ts_short (e : Elem) (rest : List Elem) (off : String)
    (ts : List TimeSeriesBlock)
    (hoff : e.publishingOffice = some off) (hts : e.timeSeries = some ts)
    (h : ts.length < 2) :
    reshapeBody (e :: rest) = .error .indexError := by
  match ts, h with
  | [], _ => simp [reshapeBody, bind, Except.bind, hoff, hts]
  | [w], _ => simp [reshapeBody, bind, Except.bind, hoff, hts]

theorem reshapeBody_temparea_error (e : Elem) (rest : List Elem) (off : String)
    (w t : TimeSeriesBlock) (bs : List TimeSeriesBlock)
    (hoff : e.publishingOffice = some off) (hts : e.timeSeries = some (w :: t :: bs))
    (hta : tempArea0 t = none) :
    reshapeBody (e :: rest) = .error .indexError := by
  have harea := tempArea0_eq_error t hta
  simp [reshapeBody, bind, Except.bind, hoff, hts, harea]

theorem reshapeBody_wtd_none (e : Elem) (rest : List Elem) (off : String)
    (w t : TimeSeriesBlock) (bs : List TimeSeriesBlock) (ta : Area)
    (hoff : e.publishingOffice = some off) (hts : e.timeSeries = some (w :: t :: bs))
    (hta : tempArea0 t = some ta) (htd : w.timeDefines = none) :
    reshapeBody (e :: rest) = .error .keyError := by
  have harea := tempArea0_eq_ok t ta hta
  simp [reshapeBody, bind, Except.bind, hoff, hts, harea, htd]

theorem reshapeBody_wareas_none (e : Elem) (rest : List Elem) (off : String)
    (w t : TimeSeriesBlock) (bs : List TimeSeriesBlock) (ta : Area) (tds : List String)
    (hoff : e.publishingOffice = some off) (hts : e.timeSeries = some (w :: t :: bs))
    (hta : tempArea0 t = some ta) (htd : w.timeDefines = some tds)
    (hwa : w.areas = none) :
    reshapeBody (e :: rest) = .error .keyError := by
  have harea := tempArea0_eq_ok t ta hta
  simp [reshapeBody, bind, Except.bind, hoff, hts, harea, htd, hwa]

theorem reshapeBody_wareas_nil (e : Elem) (rest : List Elem) (off : String)
    (w t : TimeSeriesBlock) (bs : List TimeSeriesBlock) (ta : Area) (tds : List String)
    (hoff : e.publishingOffice = some off) (hts : e.timeSeries = some (w :: t :: bs))
    (hta : tempArea0 t = some ta) (htd : w.timeDefines = some tds)
    (hwa : w.areas = some []) :
    reshapeBody (e :: rest) = .error .indexError := by
  have harea := tempArea0_eq_ok t ta hta
  simp [reshapeBody, bind, Except.bind, hoff, hts, harea, htd, hwa]

theorem reshapeBody_codes_none (e : Elem) (rest : List Elem) (off : String)
    (w t : TimeSeriesBlock) (bs : List TimeSeriesBlock) (ta wa : Area) (was : List Area)
    (tds : List String)
    (hoff : e.publishingOffice = some off) (hts : e.timeSeries = some (w :: t :: bs))
    (hta : tempArea0 t = some ta) (htd : w.timeDefines = some tds)
    (hwa : w.areas = some (wa :: was)) (hcodes : wa.weatherCodes = none) :
    reshapeBody (e :: rest) = .error .keyError := by
  have harea := tempArea0_eq_ok t ta hta
  simp [reshapeBody, bind, Except.bind, hoff, hts, harea, htd, hwa, hcodes]

theorem reshapeBody_rows_error (e : Elem) (rest : List Elem) (off : String)
    (w t : TimeSeriesBlock) (bs : List TimeSeriesBlock) (ta wa : Area) (was : List Area)
    (tds codes : List String) (err : PyError)
    (hoff : e.publishingOffice = some off) (hts : e.timeSeries = some (w :: t :: bs))
    (hta : tempArea0 t = some ta) (htd : w.timeDefines = some tds)
    (hwa : w.areas = some (wa :: was)) (hcodes : wa.weatherCodes = some codes)
    (hrows : buildRows (tempDictOf t ta) codes tds 0 = .error err) :
    reshapeBody (e :: rest) = .error err := by
  have harea := tempArea0_eq_ok t ta hta
  unfold tempDictOf at hrows
  simp [reshapeBody, bind, Except.bind, hoff, hts, harea, htd, hwa, hcodes, hrows]

theorem gwf_result_of_ok (data : ForecastDocument) (off : String) (rows : List ForecastRow)
    (h : reshapeBody data = .ok (off, rows)) :
    get_weather_forecast (.success data) = .result rows := by
  simp [get_weather_forecast, h]

/-- Shared success-path characterization: under the well-formedness
hypotheses the function returns rows of the same length as the weather
time-defines, the j-th row built from the j-th time-define and the j-th
weather code. -/
theorem gwf_rows_char (e : Elem) (rest : List Elem) (off : String)
    (w t : TimeSeriesBlock) (bs : List TimeSeriesBlock) (ta wa : Area) (was : List Area)
    (tds codes : List String)
    (hoff : e.publishingOffice = some off)
    (hts : e.timeSeries = some (w :: t :: bs))
    (hta : tempArea0 t = some ta)
    (htd : w.timeDefines = some tds)
    (hwa : w.areas = some (wa :: was))
    (hcodes : wa.weatherCodes = some codes)
    (hvalid : ∀ d ∈ tds, isValidIsoDateTime d = true)
    (hlen : tds.length ≤ codes.length) :
    ∃ rows : List ForecastRow,
      get_weather_forecast (.success (e :: rest)) = .result rows ∧
      rows.length = tds.length ∧
      ∀ j : Nat, rows.get? j =
        (tds.get? j).map (fun d => mkRow (tempDictOf t ta) (codes.getD j "") d) := by
  have hok := reshapeBody_ok e rest off w t bs ta wa was tds codes hoff hts hta htd hwa
    hcodes hvalid hlen
  refine ⟨_, gwf_result_of_ok _ _ _ hok, rowsSpec_length _ _ _ _, ?_⟩
  intro j
  have hg := rowsSpec_get? (tempDictOf t ta) codes tds 0 j
  simpa using hg

theorem gwf_of_keyError (data : ForecastDocument)
    (h : reshapeBody data = .error .keyError) :
    get_weather_forecast (.success data) = .schemaError := by
  simp [get_weather_forecast, h]

theorem gwf_of_indexError (data : ForecastDocument)
    (h : reshapeBody data = .error .indexError) :
    get_weather_forecast (.success data) = .schemaError := by
  simp [get_weather_forecast, h]

theorem gwf_of_valueError (data : ForecastDocument)
    (h : reshapeBody data = .error .valueError) :
    get_weather_forecast (.success data) = .uncaught .valueError := by
  simp [get_weather_forecast, h]

/-- C1: for every well-formed document — publishing office present, at
least two timeSeries blocks, the weather block carrying timeDefines, a
first area and weatherCodes of the same length as its timeDefines, all
dates parsable, and a non-raising temperature-area access — the
function returns a row sequence with exactly one row per entry of the
weather block's timeDefines (its length equals the length of
weatherCodes), the j-th row built from the j-th timeDefines entry and
the j-th weather code, in that order. -/
theorem C1_row_count (e : Elem) (rest : List Elem) (off : String)
    (w t : TimeSeriesBlock) (bs : List TimeSeriesBlock) (ta wa : Area) (was : List Area)
    (tds codes : List String)
    (hoff : e.publishingOffice = some off)
    (hts : e.timeSeries = some (w :: t :: bs))
    (hta : tempArea0 t = some ta)
    (htd : w.timeDefines = some tds)
    (hwa : w.areas = some (wa :: was))
    (hcodes : wa.weatherCodes = some codes)
    (hvalid : ∀ d ∈ tds, isValidIsoDateTime d = true)
    (hlen : codes.length = tds.length) :
    ∃ rows : List ForecastRow,
      get_weather_forecast (.success (e :: rest)) = .result rows ∧
      rows.length = codes.length ∧
      ∀ j : Nat, rows.get? j =
        (tds.get? j).map (fun d => mkRow (tempDictOf t ta) (codes.getD j "") d) := by
  obtain ⟨rows, hres, hlength, hget⟩ :=
    gwf_rows_char e rest off w t bs ta wa was tds codes hoff hts hta htd hwa hcodes
      hvalid (le_of_eq hlen.symm)
  exact ⟨rows, hres, by rw [hlength, hlen], hget⟩

/-- C1 witness: the worked example produces exactly two rows, one per
weather time-define, in order. -/
theorem C1_row_count_witness :
    ∃ rows : List ForecastRow,
      get_weather_forecast (.success (exElem :: [])) = .result rows ∧
      rows.length = (["100", "200"] : List String).length ∧
      ∀ j : Nat, rows.get? j =
        ((["2024-06-01T00:00:00+09:00", "2024-06-02T00:00:00+09:00"] : List String).get? j).map
          (fun d => mkRow (tempDictOf exTempBlock exTempArea)
            ((["100", "200"] : List String).getD j "") d) :=
  C1_row_count exElem [] "気象庁" exWeatherBlock exTempBlock [] exTempArea exWeatherArea []
    ["2024-06-01T00:00:00+09:00", "2024-06-02T00:00:00+09:00"] ["100", "200"]
    rfl rfl rfl rfl rfl rfl (by decide) (by decide)

/-- C2: in every well-formed document, the i-th row's date is the
calendar-date portion (the first ten characters, YYYY-MM-DD) of the
weather block's i-th timeDefines entry, and its weather-code field is
the i-th weather code. -/
theorem C2_row_fields (e : Elem) (rest : List Elem) (off : String)
    (w t : TimeSeriesBlock) (bs : List TimeSeriesBlock) (ta wa : Area) (was : List Area)
    (tds codes : List String)
    (hoff : e.publishingOffice = some off)
    (hts : e.timeSeries = some (w :: t :: bs))
    (hta : tempArea0 t = some ta)
    (htd : w.timeDefines = some tds)
    (hwa : w.areas = some (wa :: was))
    (hcodes : wa.weatherCodes = some codes)
    (hvalid : ∀ d ∈ tds, isValidIsoDateTime d = true)
    (hlen : codes.length = tds.length)
    (i : Nat) (hi : i < tds.length) :
    ∃ rows : List ForecastRow,
      get_weather_forecast (.success (e :: rest)) = .result rows ∧
      (rows.get? i).map ForecastRow.date = some ((tds.getD i "").take 10) ∧
      (rows.get? i).map ForecastRow.weatherCode = some (codes.getD i "") := by
  obtain ⟨rows, hres, hlength, hget⟩ :=
    gwf_rows_char e rest off w t bs ta wa was tds codes hoff hts hta htd hwa hcodes
      hvalid (le_of_eq hlen.symm)
  have h1 : tds.get? i = some (tds.getD i "") := by
    simp [List.get?_eq_getElem?, List.getElem?_eq_getElem hi, List.getD_eq_getElem?_getD]
  refine ⟨rows, hres, ?_, ?_⟩
  · rw [hget i, h1]
    simp [mkRow]
  · rw [hget i, h1]
    simp [mkRow]

/-- C2 witness: in the worked example, row 1's date is the first ten
characters of the second weather time-define and its code is "200". -/
theorem C2_row_fields_witness :
    ∃ rows : List ForecastRow,
      get_weather_forecast (.success (exElem :: [])) = .result rows ∧
      (rows.get? 1).map ForecastRow.date =
        some (((["2024-06-01T00:00:00+09:00", "2024-06-02T00:00:00+09:00"] :
          List String).getD 1 "").take 10) ∧
      (rows.get? 1).map ForecastRow.weatherCode =
        some ((["100", "200"] : List String).getD 1 "") :=
  C2_row_fields exElem [] "気象庁" exWeatherBlock exTempBlock [] exTempArea exWeatherArea []
    ["2024-06-01T00:00:00+09:00", "2024-06-02T00:00:00+09:00"] ["100", "200"]
    rfl rfl rfl rfl rfl rfl (by decide) (by decide) 1 (by decide)

/-- C3: in every well-formed document, a weather time-define with no
string-equal entry among the temperature block's timeDefines yields a
row whose min and max temperature fields are both the sentinel "-",
and the reshape still succeeds (a result is returned, no error). -/
theorem C3_missing_temp_date (e : Elem) (rest : List Elem) (off : String)
    (w t : TimeSeriesBlock) (bs : List TimeSeriesBlock) (ta wa : Area) (was : List Area)
    (tds codes : List String)
    (hoff : e.publishingOffice = some off)
    (hts : e.timeSeries = some (w :: t :: bs))
    (hta : tempArea0 t = some ta)
    (htd : w.timeDefines = some tds)
    (hwa : w.areas = some (wa :: was))
    (hcodes : wa.weatherCodes = some codes)
    (hvalid : ∀ d ∈ tds, isValidIsoDateTime d = true)
    (hlen : codes.length = tds.length)
    (i : Nat) (hi : i < tds.length)
    (hmiss : tds.getD i "" ∉ (t.timeDefines).getD []) :
    ∃ rows : List ForecastRow,
      get_weather_forecast (.success (e :: rest)) = .result rows ∧
      (rows.get? i).map ForecastRow.minTemp = some "-" ∧
      (rows.get? i).map ForecastRow.maxTemp = some "-" := by
  obtain ⟨rows, hres, hlength, hget⟩ :=
    gwf_rows_char e rest off w t bs ta wa was tds codes hoff hts hta htd hwa hcodes
      hvalid (le_of_eq hlen.symm)
  have h1 : tds.get? i = some (tds.getD i "") := by
    simp [List.get?_eq_getElem?, List.getElem?_eq_getElem hi, List.getD_eq_getElem?_getD]
  have hnone : tempDictGet (tempDictOf t ta) (tds.getD i "") = none := by
    unfold tempDictOf
    rw [tempDictGet_buildTempDict_not_mem _ _ _ _ _ _ hmiss]
    rfl
  refine ⟨rows, hres, ?_, ?_⟩
  · rw [hget i, h1, Option.map_some']
    show some (resolvedMin (tempDictOf t ta) (tds.getD i "")) = some "-"
    unfold resolvedMin
    rw [hnone]
  · rw [hget i, h1, Option.map_some']
    show some (resolvedMax (tempDictOf t ta) (tds.getD i "")) = some "-"
    unfold resolvedMax
    rw [hnone]

/-- C3 witness: in the worked example the second weather date has no
temperature entry and its row carries "-" for both temperatures. -/
theorem C3_missing_temp_date_witness :
    ∃ rows : List ForecastRow,
      get_weather_forecast (.success (exElem :: [])) = .result rows ∧
      (rows.get? 1).map ForecastRow.minTemp = some "-" ∧
      (rows.get? 1).map ForecastRow.maxTemp = some "-" :=
  C3_missing_temp_date exElem [] "気象庁" exWeatherBlock exTempBlock [] exTempArea
    exWeatherArea [] ["2024-06-01T00:00:00+09:00", "2024-06-02T00:00:00+09:00"]
    ["100", "200"] rfl rfl rfl rfl rfl rfl (by decide) (by decide) 1 (by decide) (by decide)

/-- C4: when the temperature block's tempsMin is shorter than its
timeDefines (with distinct date keys, as in well-formed input), every
index i at or beyond the length of tempsMin is stored in the
temperature dictionary with min "-", while the stored max at that index
is tempsMax[i] whenever i is within range of tempsMax — the sentinel
substitution is decided independently per index and per field. -/
theorem C4_short_tempsMin (t : TimeSeriesBlock) (ta : Area) (ttds mins maxs : List String)
    (htd : t.timeDefines = some ttds)
    (hta : tempArea0 t = some ta)
    (hmins : ta.tempsMin = some mins)
    (hmaxs : ta.tempsMax = some maxs)
    (hnodup : ttds.Nodup)
    (hshort : mins.length < ttds.length)
    (i : Nat) (hi : i < ttds.length) (hge : mins.length ≤ i) :
    tempDictGet (tempDictOf t ta) (ttds.get ⟨i, hi⟩) =
      some ⟨"-", if h2 : i < maxs.length then maxs.get ⟨i, h2⟩ else "-"⟩ := by
  unfold tempDictOf
  rw [htd, hmins, hmaxs]
  simp only [Option.getD_some]
  have hchar := tempDictGet_buildTempDict_nodup mins maxs ttds 0 [] i hi hnodup
  simp only [Nat.zero_add] at hchar
  rw [hchar]
  have hneg : ¬ i < mins.length := by omega
  simp [hneg]

/-- C4 witness: timeDefines of length two, tempsMin of length one,
tempsMax of length two; index 1 is stored as ("-", "30"). -/
theorem C4_short_tempsMin_witness :
    tempDictGet (tempDictOf shortMinTempBlock shortMinTempArea)
      ((["2024-06-01T00:00:00+09:00", "2024-06-02T00:00:00+09:00"] : List String).get
        ⟨1, by decide⟩) =
      some ⟨"-", if h2 : 1 < (["20", "30"] : List String).length
                 then (["20", "30"] : List String).get ⟨1, h2⟩ else "-"⟩ :=
  C4_short_tempsMin shortMinTempBlock shortMinTempArea
    ["2024-06-01T00:00:00+09:00", "2024-06-02T00:00:00+09:00"] ["10"] ["20", "30"]
    rfl rfl rfl rfl (by decide) (by decide) 1 (by decide) (by decide)

/-- C5: every document with a missing required key — timeSeries, or the
weather block's timeDefines, areas or weatherCodes — or an
index-out-of-range access on the expected path (empty document, fewer
than two timeSeries blocks, an empty areas list, or fewer weather codes
than weather time-defines) makes the function return the single
schema-error no-result outcome None, not a crash and not a partial row
sequence. -/
theorem C5_schema_error (data : ForecastDocument) (h : schemaBroken data = true) :
    get_weather_forecast (.success data) = .schemaError := by
  cases data with
  | nil => exact gwf_of_indexError [] reshapeBody_nil
  | cons e rest =>
      cases hoff : e.publishingOffice with
      | none => exact gwf_of_keyError _ (reshapeBody_office_none e rest hoff)
      | some off =>
          cases hts : e.timeSeries with
          | none => exact gwf_of_keyError _ (reshapeBody_ts_none e rest off hoff hts)
          | some ts =>
              match ts, hts with
              | [], hts =>
                  exact gwf_of_indexError _
                    (reshapeBody_ts_short e rest off [] hoff hts (by decide))
              | [w], hts =>
                  exact gwf_of_indexError _
                    (reshapeBody_ts_short e rest off [w] hoff hts (by simp))
              | w :: t :: bs, hts =>
                  simp only [schemaBroken, hts] at h
                  cases hta : tempArea0 t with
                  | none =>
                      exact gwf_of_indexError _
                        (reshapeBody_temparea_error e rest off w t bs hoff hts hta)
                  | some ta =>
                      simp only [hta, Option.isSome_some, Option.isNone_some,
                        Bool.false_or] at h
                      cases htd : w.timeDefines with
                      | none =>
                          exact gwf_of_keyError _
                            (reshapeBody_wtd_none e rest off w t bs ta hoff hts hta htd)
                      | some tds =>
                          simp only [htd] at h
                          cases hwa : w.areas with
                          | none =>
                              exact gwf_of_keyError _
                                (reshapeBody_wareas_none e rest off w t bs ta tds hoff hts
                                  hta htd hwa)
                          | some areas =>
                              simp only [hwa] at h
                              match areas, h with
                              | [], h =>
                                  exact gwf_of_indexError _
                                    (reshapeBody_wareas_nil e rest off w t bs ta tds hoff
                                      hts hta htd hwa)
                              | wa :: was, h =>
                                  cases hcodes : wa.weatherCodes with
                                  | none =>
                                      exact gwf_of_keyError _
                                        (reshapeBody_codes_none e rest off w t bs ta wa was
                                          tds hoff hts hta htd hwa hcodes)
                                  | some codes =>
                                      simp only [hcodes, Bool.and_eq_true,
                                        decide_eq_true_eq, List.all_eq_true] at h
                                      apply gwf_of_indexError
                                      apply reshapeBody_rows_error e rest off w t bs ta wa
                                        was tds codes .indexError hoff hts hta htd hwa hcodes
                                      apply buildRows_indexError (tempDictOf t ta) codes tds 0
                                        (by omega) (by omega)
                                      intro d hd
                                      exact h.2 d (by simpa using hd)

/-- C5 witness: a document whose only element lacks timeSeries yields
the schema-error None. -/
theorem C5_schema_error_witness :
    schemaBroken [⟨some "気象庁", none⟩] = true ∧
    get_weather_forecast (.success [⟨some "気象庁", none⟩]) = .schemaError :=
  ⟨rfl, C5_schema_error [⟨some "気象庁", none⟩] rfl⟩

/-- C6 counterexample: in a document whose weather block's first
time-define is the unparsable string "garbage" (every required key
present), the function does not return the schema-error None — the
ValueError-class parse error escapes to the caller. -/
theorem C6_counterexample :
    get_weather_forecast (.success badDateDoc) = .uncaught .valueError ∧
    get_weather_forecast (.success badDateDoc) ≠ .schemaError := by
  constructor
  · rfl
  · intro h
    rw [show get_weather_forecast (.success badDateDoc) = .uncaught .valueError from rfl] at h
    cases h

/-- C6 amended: a weather-block timeDefines entry that cannot be parsed
as a date-time does not produce the schema-error None — the
ValueError-class exception raised by the date parse escapes to the
caller, because only IndexError and KeyError are converted to the
no-result signal.  (Stated for the first unparsable entry, with every
earlier entry parsable and within range of the weather codes.) -/
theorem C6_amended_parse_escapes (e : Elem) (rest : List Elem) (off : String)
    (w t : TimeSeriesBlock) (bs : List TimeSeriesBlock) (ta wa : Area) (was : List Area)
    (tds codes : List String)
    (hoff : e.publishingOffice = some off)
    (hts : e.timeSeries = some (w :: t :: bs))
    (hta : tempArea0 t = some ta)
    (htd : w.timeDefines = some tds)
    (hwa : w.areas = some (wa :: was))
    (hcodes : wa.weatherCodes = some codes)
    (j : Nat) (hj : j < tds.length)
    (hbad : isValidIsoDateTime (tds.getD j "") = false)
    (hpre : ∀ k, k < j → isValidIsoDateTime (tds.getD k "x") = true)
    (hjcodes : j ≤ codes.length) :
    get_weather_forecast (.success (e :: rest)) = .uncaught .valueError := by
  apply gwf_of_valueError
  apply reshapeBody_rows_error e rest off w t bs ta wa was tds codes .valueError hoff hts
    hta htd hwa hcodes
  apply buildRows_valueError (tempDictOf t ta) codes tds 0 j
  · simp [List.get?_eq_getElem?, List.getElem?_eq_getElem hj, List.getD_eq_getElem?_getD]
  · exact hbad
  · exact hpre
  · omega

/-- C6 amended witness: the bad-date document reaches the uncaught
ValueError outcome. -/
theorem C6_amended_witness :
    get_weather_forecast (.success badDateDoc) = .uncaught .valueError :=
  C6_amended_parse_escapes
    ⟨some "気象庁",
     some [⟨some ["garbage"], some [⟨some ["100"], none, none⟩]⟩,
           ⟨some [], some [⟨none, some [], some []⟩]⟩]⟩
    [] "気象庁"
    ⟨some ["garbage"], some [⟨some ["100"], none, none⟩]⟩
    ⟨some [], some [⟨none, some [], some []⟩]⟩
    [] ⟨none, some [], some []⟩ ⟨some ["100"], none, none⟩ []
    ["garbage"] ["100"]
    rfl rfl rfl rfl rfl rfl 0 (by decide) (by decide) (fun k hk => absurd hk (by omega))
    (by decide)

/-- C7: a RequestException-class fetch failure (network error or
non-success HTTP status) yields the no-result outcome classified as a
transport error, and the reshape step never runs — no successfully
fetched document can yield the transport-error outcome; every success
outcome is a schema error, an uncaught exception, or a row result. -/
theorem C7_transport_error :
    get_weather_forecast .failure = .transportError ∧
    ∀ data : ForecastDocument,
      get_weather_forecast (.success data) = .schemaError ∨
      (∃ err, get_weather_forecast (.success data) = .uncaught err) ∨
      (∃ rows, get_weather_forecast (.success data) = .result rows) := by
  refine ⟨rfl, ?_⟩
  intro data
  cases hr : reshapeBody data with
  | ok v =>
      obtain ⟨o, rows⟩ := v
      exact Or.inr (Or.inr ⟨rows, by simp [get_weather_forecast, hr]⟩)
  | error err =>
      cases err with
      | keyError => exact Or.inl (by simp [get_weather_forecast, hr])
      | indexError => exact Or.inl (by simp [get_weather_forecast, hr])
      | valueError =>
          exact Or.inr (Or.inl ⟨.valueError, by simp [get_weather_forecast, hr]⟩)

/-- C9: a temperature block missing its areas key, its timeDefines key,
or whose first area is missing tempsMin or tempsMax, does not make the
reshape fail: the function still returns one row per weather
time-define, and the affected min (resp. max) field of every row is the
sentinel "-". -/
theorem C9_temp_defaults (e : Elem) (rest : List Elem) (off : String)
    (w t : TimeSeriesBlock) (bs : List TimeSeriesBlock) (ta wa : Area) (was : List Area)
    (tds codes : List String)
    (hoff : e.publishingOffice = some off)
    (hts : e.timeSeries = some (w :: t :: bs))
    (hta : tempArea0 t = some ta)
    (htd : w.timeDefines = some tds)
    (hwa : w.areas = some (wa :: was))
    (hcodes : wa.weatherCodes = some codes)
    (hvalid : ∀ d ∈ tds, isValidIsoDateTime d = true)
    (hlen : codes.length = tds.length) :
    ∃ rows : List ForecastRow,
      get_weather_forecast (.success (e :: rest)) = .result rows ∧
      rows.length = tds.length ∧
      ((t.areas = none ∨ t.timeDefines = none ∨ ta.tempsMin = none) →
        ∀ r ∈ rows, r.minTemp = "-") ∧
      ((t.areas = none ∨ t.timeDefines = none ∨ ta.tempsMax = none) →
        ∀ r ∈ rows, r.maxTemp = "-") := by
  obtain ⟨rows, hres, hlength, hget⟩ :=
    gwf_rows_char e rest off w t bs ta wa was tds codes hoff hts hta htd hwa hcodes
      hvalid (le_of_eq hlen.symm)
  have hrowsSpec : rows = rowsSpec (tempDictOf t ta) codes tds 0 := by
    have h0 := reshapeBody_ok e rest off w t bs ta wa was tds codes hoff hts hta htd hwa
      hcodes hvalid (le_of_eq hlen.symm)
    have h1 := gwf_result_of_ok _ _ _ h0
    rw [hres] at h1
    cases h1
    rfl
  have hminAll :
      (∀ k v, tempDictGet (tempDictOf t ta) k = some v → v.min = "-") →
      ∀ r ∈ rows, r.minTemp = "-" := by
    intro hdict r hr
    rw [hrowsSpec] at hr
    obtain ⟨d, _, c, hrc⟩ := rowsSpec_mem _ _ _ _ _ hr
    rw [hrc]
    exact resolvedMin_dash _ hdict d
  have hmaxAll :
      (∀ k v, tempDictGet (tempDictOf t ta) k = some v → v.max = "-") →
      ∀ r ∈ rows, r.maxTemp = "-" := by
    intro hdict r hr
    rw [hrowsSpec] at hr
    obtain ⟨d, _, c, hrc⟩ := rowsSpec_mem _ _ _ _ _ hr
    rw [hrc]
    exact resolvedMax_dash _ hdict d
  have hAreasNone : t.areas = none → ta = emptyArea := by
    intro h
    unfold tempArea0 at hta
    rw [h] at hta
    cases hta
    rfl
  have hTdNone : t.timeDefines = none →
      ∀ k v, tempDictGet (tempDictOf t ta) k = some v → False := by
    intro h k v hv
    unfold tempDictOf at hv
    rw [h] at hv
    simp [buildTempDict, tempDictGet] at hv
  refine ⟨rows, hres, hlength, ?_, ?_⟩
  · intro hcase
    apply hminAll
    rcases hcase with h | h | h
    · have he := hAreasNone h
      intro k v hv
      apply buildTempDict_min_dash _ _ _ [] (fun k v hv => by simp [tempDictGet] at hv) k v
      unfold tempDictOf at hv
      rw [he] at hv
      exact hv
    · intro k v hv
      exact absurd hv (by intro hv2; exact hTdNone h k v hv2)
    · intro k v hv
      apply buildTempDict_min_dash _ _ _ [] (fun k v hv => by simp [tempDictGet] at hv) k v
      unfold tempDictOf at hv
      rw [h] at hv
      exact hv
  · intro hcase
    apply hmaxAll
    rcases hcase with h | h | h
    · have he := hAreasNone h
      intro k v hv
      apply buildTempDict_max_dash _ _ _ [] (fun k v hv => by simp [tempDictGet] at hv) k v
      unfold tempDictOf at hv
      rw [he] at hv
      exact hv
    · intro k v hv
      exact absurd hv (by intro hv2; exact hTdNone h k v hv2)
    · intro k v hv
      apply buildTempDict_max_dash _ _ _ [] (fun k v hv => by simp [tempDictGet] at hv) k v
      unfold tempDictOf at hv
      rw [h] at hv
      exact hv

/-- C8: the temperature dictionary is keyed by the full date-time
strings of the temperature block's timeDefines exactly as found, with
no normalization — a lookup succeeds precisely for a string-equal
entry — so a weather time-define that differs in any character from
every temperature time-define (for instance only in time-of-day)
resolves both its min and max temperature to the sentinel "-". -/
theorem C8_exact_string_keys (t : TimeSeriesBlock) (ta : Area) (k : String) :
    (tempDictGet (tempDictOf t ta) k).isSome = decide (k ∈ (t.timeDefines).getD []) ∧
    (k ∉ (t.timeDefines).getD [] →
      resolvedMin (tempDictOf t ta) k = "-" ∧ resolvedMax (tempDictOf t ta) k = "-") := by
  constructor
  · unfold tempDictOf
    rw [tempDictGet_buildTempDict_isSome]
    simp [tempDictGet]
  · intro hmem
    have hnone : tempDictGet (tempDictOf t ta) k = none := by
      unfold tempDictOf
      rw [tempDictGet_buildTempDict_not_mem _ _ _ _ _ _ hmem]
      rfl
    constructor
    · unfold resolvedMin
      rw [hnone]
    · unfold resolvedMax
      rw [hnone]

/-- C8 witness: a weather date-time naming the same calendar day as the
worked example's temperature entry but a different time of day misses
the dictionary and resolves both temperatures to "-". -/
theorem C8_exact_string_keys_witness :
    resolvedMin (tempDictOf exTempBlock exTempArea) "2024-06-01T12:00:00+09:00" = "-" ∧
    resolvedMax (tempDictOf exTempBlock exTempArea) "2024-06-01T12:00:00+09:00" = "-" :=
  (C8_exact_string_keys exTempBlock exTempArea "2024-06-01T12:00:00+09:00").2 (by decide)

/-- C9 witness: a document whose second timeSeries block has neither
timeDefines nor areas still succeeds, every row carrying "-" for both
temperatures. -/
theorem C9_temp_defaults_witness :
    ∃ rows : List ForecastRow,
      get_weather_forecast
        (.success [⟨some "気象庁", some [exWeatherBlock, ⟨none, none⟩]⟩]) =
        .result rows ∧
      ∀ r ∈ rows, r.minTemp = "-" ∧ r.maxTemp = "-" := by
  obtain ⟨rows, hres, hlength, hmin, hmax⟩ :=
    C9_temp_defaults ⟨some "気象庁", some [exWeatherBlock, ⟨none, none⟩]⟩ [] "気象庁"
      exWeatherBlock ⟨none, none⟩ [] emptyArea exWeatherArea []
      ["2024-06-01T00:00:00+09:00", "2024-06-02T00:00:00+09:00"] ["100", "200"]
      rfl rfl rfl rfl rfl rfl (by decide) (by decide)
  exact ⟨rows, hres, fun r hr => ⟨hmin (Or.inl rfl) r hr, hmax (Or.inl rfl) r hr⟩⟩

/-- C10: a document whose first element lacks the publishingOffice key
fails with the schema-error None before any row is built, although no
output row depends on that field. -/
theorem C10_office_required (e : Elem) (rest : List Elem)
    (h : e.publishingOffice = none) :
    get_weather_forecast (.success (e :: rest)) = .schemaError :=
  gwf_of_keyError _ (reshapeBody_office_none e rest h)

/-- C10 witness: an otherwise fully well-formed document without
publishingOffice yields the schema-error None. -/
theorem C10_office_required_witness :
    get_weather_forecast (.success
      [⟨none, some [exWeatherBlock, exTempBlock]⟩]) = .schemaError :=
  C10_office_required ⟨none, some [exWeatherBlock, exTempBlock]⟩ [] rfl

end Kadai
